import Mathlib

/-!
# Collider signaling server: verification of the relay-engine dispatch

A shallow embedding of `src/collider/collider.go` (the `wsHandler` WebSocket
dispatch loop and the `httpHandler` administrative handler), together with a
model of the room table / client directory component those handlers call into.

Connections and I/O are modelled by an explicit trace of effects: every call
into the room table, every structured error delivered to a connection, and the
final close are recorded as `Effect` values, and the dispatch loop is a
function from the list of decoded inbound events to the resulting state and
trace.
-/

namespace Collider

/-- Modelled from the spec: a `Room` (§3) holds its ordered member set
(capacity two) and the FIFO queue of pending `(kind, payload)` messages
awaiting the second member.  The room type itself is not under `src/`;
only its callers are. -/
structure Room where
  members : List String
  queue : List (String × String)
deriving DecidableEq, Repr

/-- Modelled from the spec: the Room Table (§4.1), the process-wide mapping
from room identifier to `Room`.  Registration timers are real-time behaviour
and are not modelled. -/
abbrev RoomTable := List (String × Room)

/-- Look up a room by identifier. -/
def lookupRoom : RoomTable → String → Option Room
  | [], _ => none
  | (k, r) :: rest, rid => if k = rid then some r else lookupRoom rest rid

/-- Replace (or insert) the room stored under `rid`. -/
def setRoom (rt : RoomTable) (rid : String) (r : Room) : RoomTable :=
  match rt with
  | [] => [(rid, r)]
  | (k, r0) :: rest => if k = rid then (rid, r) :: rest else (k, r0) :: setRoom rest rid r

/-- Delete the room stored under `rid` (if any). -/
def eraseRoom : RoomTable → String → RoomTable
  | [], _ => []
  | (k, r0) :: rest, rid => if k = rid then rest else (k, r0) :: eraseRoom rest rid

/-- Modelled from the spec: membership of the Client Directory (§3), the
process-wide `ClientID → Client` mapping (`registered_clients` in the code,
defined outside `src/`).  Its invariant ties directory membership to room
membership, so a client identifier resolves exactly when it is a member of
some room. -/
def inDirectory (rt : RoomTable) (cid : String) : Bool :=
  rt.any (fun p => p.2.members.contains cid)

/-- One observable action of the engine: a call into the room table, a
payload delivery, a structured error sent to a connection, or the close of
the handled connection.  Calls that return a result record it so a trace
shows what the caller was told. -/
inductive Effect where
  /-- `c.wsError msg ws`: structured error to the handled connection, plus
  the dashboard error counter. -/
  | wsErr (msg : String)
  /-- `sendServerErr ws msg` on the handled connection (without the
  dashboard counter). -/
  | serverErr (msg : String)
  /-- `sendServerErr` to the connection of directory client `cid`. -/
  | serverErrTo (cid : String) (msg : String)
  /-- A `(kind, payload)` delivered to client `cid`'s connection. -/
  | delivered (cid : String) (kind : String) (payload : String)
  /-- `roomTable.register rid cid ws` was invoked; `result` is the error it
  returned, if any. -/
  | registerCall (rid : String) (cid : String) (result : Option String)
  /-- `roomTable.deregister rid cid` was invoked. -/
  | deregisterCall (rid : String) (cid : String)
  /-- `roomTable.send rid cid kind payload` was invoked; `result` is the
  error it returned, if any. -/
  | sendCall (rid : String) (cid : String) (kind : String) (payload : String)
      (result : Option String)
  /-- `sendByID to kind payload` was invoked; `result` is the error it
  returned, if any. -/
  | sendByIDCall (target : String) (kind : String) (payload : String) (result : Option String)
  /-- `roomTable.remove rid cid` was invoked. -/
  | removeCall (rid : String) (cid : String)
  /-- `roomTable.removeRoom rid` was invoked. -/
  | removeRoomCall (rid : String)
  /-- `http.Error` reply on an HTTP request. -/
  | httpErr (msg : String)
  /-- The `"OK\n"` success reply on an HTTP request. -/
  | httpOK
  /-- `ws.Close()` on the handled connection. -/
  | connClosed
deriving DecidableEq, Repr

/-- Modelled from the spec: Room Table `register` (§4.1).  A client identifier
already registered anywhere fails with a duplicate-registration error; a
missing identifier fails with an invalid-request error; a full room fails
(membership never exceeds 2).  Otherwise the client joins (the room is
created if absent), and a second joiner atomically receives the pending
queue in FIFO order, which is then cleared. -/
def register (rt : RoomTable) (rid cid : String) :
    Except String (RoomTable × List Effect) :=
  if rid = "" ∨ cid = "" then .error "invalid request: missing identifier"
  else if inDirectory rt cid then .error "duplicated client id"
  else
    match lookupRoom rt rid with
    | none => .ok (setRoom rt rid ⟨[cid], []⟩, [])
    | some r =>
      if 2 ≤ r.members.length then .error "room is full"
      else .ok (setRoom rt rid ⟨r.members ++ [cid], []⟩,
                r.queue.map (fun q => .delivered cid q.1 q.2))

/-- Modelled from the spec: Room Table `send` (§4.1).  The origin must be a
current member of the room (`NotRegistered` otherwise); the payload is
delivered to the other member if present and queued on the room otherwise. -/
def send (rt : RoomTable) (rid cid kind payload : String) :
    Except String (RoomTable × List Effect) :=
  match lookupRoom rt rid with
  | none => .error "not registered"
  | some r =>
    if r.members.contains cid then
      match (r.members.filter (fun m => m ≠ cid)).head? with
      | some other => .ok (rt, [.delivered other kind payload])
      | none => .ok (setRoom rt rid ⟨r.members, r.queue ++ [(kind, payload)]⟩, [])
    else .error "not registered"

/-- Modelled from the spec: direct routing `sendByID` (§4.2).  Delivers to
the directory entry for the target if connected, never buffers, and fails
with `PeerOffline` otherwise. -/
def sendByID (rt : RoomTable) (target kind payload : String) :
    Except String (List Effect) :=
  if inDirectory rt target then .ok [.delivered target kind payload]
  else .error "peer offline"

/-- Modelled from the spec: Room Table `deregister` (§4.1).  Idempotent: a
non-member is a no-op; otherwise the client leaves the room (and hence the
directory), and an emptied room is deleted. -/
def deregister (rt : RoomTable) (rid cid : String) : RoomTable :=
  match lookupRoom rt rid with
  | none => rt
  | some r =>
    if r.members.contains cid then
      match r.members.filter (fun m => m ≠ cid) with
      | [] => eraseRoom rt rid
      | rest => setRoom rt rid ⟨rest, r.queue⟩
    else rt

/-- Modelled from the spec: Room Table `remove` (§4.1), the administrative
forced removal — same effect as `deregister`, callable out-of-band. -/
def remove (rt : RoomTable) (rid cid : String) : RoomTable :=
  deregister rt rid cid

/-- Modelled from the spec: Room Table `removeRoom` (§4.1) —
unconditionally deletes the room, its members and its queue. -/
def removeRoom (rt : RoomTable) (rid : String) : RoomTable :=
  eraseRoom rt rid

/-- The decoded inbound message shape consumed by `wsHandler`
(`wsClientMsg`: fields `Cmd`, `RoomID`, `ClientID`, `Msg`, `To`). -/
structure WsClientMsg where
  cmd : String
  roomid : String
  clientid : String
  msg : String
  target : String
deriving DecidableEq, Repr

/-- One outcome of `websocket.JSON.Receive` in the dispatch loop: a decoded
message, a non-EOF receive error (reported via `wsError`), or EOF
(transport closure, not reported). -/
inductive WsEvent where
  | recv (m : WsClientMsg)
  | recvErr (e : String)
  | eof
deriving DecidableEq, Repr

/-- The per-connection local state of `wsHandler`: the `registered` flag,
the `rid`/`cid` variables, the `thisClient` directory lookup, and the
deferred `roomTable.deregister(rid, cid)` registered on successful
registration (its arguments are evaluated at `defer` time). -/
structure ConnState where
  registered : Bool
  rid : String
  cid : String
  thisClient : Option String
  deferredDereg : Option (String × String)
deriving DecidableEq, Repr

/-- The initial state of `wsHandler`'s locals. -/
def initConn : ConnState :=
  { registered := false, rid := "", cid := "", thisClient := none, deferredDereg := none }

/-- Result of one iteration of the dispatch loop body: updated room table
and locals, the effects of the iteration, and whether the iteration broke
out of the loop (`break loop`). -/
structure StepOut where
  rt : RoomTable
  st : ConnState
  eff : List Effect
  brk : Bool
deriving DecidableEq, Repr

/-- One iteration of `wsHandler`'s `switch msg.Cmd` on a decoded message,
translated from `collider.go` lines 206–297.  Note that the `break`
statements in the `send`, `leave` and `default` arms break only the
`switch`, not the loop; only the arms written `break loop` terminate
dispatch. -/
def wsStep (rt : RoomTable) (st : ConnState) (m : WsClientMsg) : StepOut :=
  if m.cmd = "register" then
    if st.registered then ⟨rt, st, [.wsErr "Duplicated register request"], false⟩
    else if m.roomid = "" ∨ m.clientid = "" then
      ⟨rt, st, [.wsErr "Invalid register request: missing 'clientid' or 'roomid'"], true⟩
    else
      match register rt m.roomid m.clientid with
      | .error e => ⟨rt, st, [.registerCall m.roomid m.clientid (some e), .wsErr e], true⟩
      | .ok (rt', deliv) =>
        ⟨rt',
         { registered := true, rid := m.roomid, cid := m.clientid
           thisClient := if inDirectory rt' m.clientid then some m.clientid else none
           deferredDereg := some (m.roomid, m.clientid) },
         .registerCall m.roomid m.clientid none :: deliv, false⟩
  else if m.cmd = "send" then
    if st.thisClient = none then ⟨rt, st, [], false⟩
    else if st.registered = false then ⟨rt, st, [.wsErr "Client not registered"], true⟩
    else if m.msg = "" then ⟨rt, st, [.wsErr "Invalid send request: missing 'msg'"], true⟩
    else
      match send rt st.rid st.cid "send" m.msg with
      | .error e => ⟨rt, st, [.sendCall st.rid st.cid "send" m.msg (some e)], false⟩
      | .ok (rt', deliv) => ⟨rt', st, .sendCall st.rid st.cid "send" m.msg none :: deliv, false⟩
  else if m.cmd = "video_chat" ∨ m.cmd = "audio_chat" ∨ m.cmd = "chat" then
    if st.thisClient = none then ⟨rt, st, [], false⟩
    else if m.msg ≠ "" ∧ m.target ≠ "" then
      match sendByID rt m.target m.cmd m.msg with
      | .error e => ⟨rt, st, [.sendByIDCall m.target m.cmd m.msg (some e), .serverErr e], false⟩
      | .ok deliv => ⟨rt, st, .sendByIDCall m.target m.cmd m.msg none :: deliv, false⟩
    else ⟨rt, st, [], false⟩
  else if m.cmd = "leave" then
    ⟨deregister rt st.rid st.cid, st, [.deregisterCall st.rid st.cid], false⟩
  else
    ⟨rt, st, [.wsErr "Invalid message: unexpected 'cmd'"], false⟩

/-- Result of running the dispatch loop on a finite prefix of inbound
events: `terminated` records whether the loop exited (by `break` or by a
receive error/EOF) within that prefix. -/
structure RunOut where
  rt : RoomTable
  st : ConnState
  eff : List Effect
  terminated : Bool
deriving DecidableEq, Repr

/-- The dispatch loop of `wsHandler` over a finite list of receive
outcomes.  EOF ends the loop silently; any other receive error is reported
via `wsError` and ends the loop; a decoded message is handled by `wsStep`
and the loop continues unless that step broke out. -/
def wsRun (rt : RoomTable) (st : ConnState) : List WsEvent → RunOut
  | [] => ⟨rt, st, [], false⟩
  | .eof :: _ => ⟨rt, st, [], true⟩
  | .recvErr e :: _ =>
      ⟨rt, st, [.wsErr ("websocket.JSON.Receive error: " ++ e)], true⟩
  | .recv m :: rest =>
      let s := wsStep rt st m
      if s.brk then ⟨s.rt, s.st, s.eff, true⟩
      else
        let out := wsRun s.rt s.st rest
        ⟨out.rt, out.st, s.eff ++ out.eff, out.terminated⟩

/-- The exit path of `wsHandler`: when the loop has exited, `ws.Close()`
followed by the deferred `roomTable.deregister(rid, cid)` (Go runs deferred
calls after the function body).  If the prefix of events ends with the loop
still waiting for input, the connection is still open and no cleanup has
run. -/
def wsFinish (out : RunOut) : RoomTable × List Effect :=
  if out.terminated then
    match out.st.deferredDereg with
    | some (r, c) =>
        (deregister out.rt r c, out.eff ++ [.connClosed, .deregisterCall r c])
    | none => (out.rt, out.eff ++ [.connClosed])
  else (out.rt, out.eff)

/-- The whole of `wsHandler` on a finite prefix of inbound events: the
dispatch loop followed by its exit path. -/
def wsHandler (rt : RoomTable) (events : List WsEvent) : RoomTable × List Effect :=
  wsFinish (wsRun rt initConn events)

/-- `strings.Split` on a single-character separator, recursing over the
character list: splitting the empty string yields `[""]`, and each
separator occurrence starts a new field. -/
def splitChar (sep : Char) : List Char → List (List Char)
  | [] => [[]]
  | c :: rest =>
    let ps := splitChar sep rest
    if c = sep then [] :: ps
    else
      match ps with
      | [] => [[c]]
      | p :: tail => (c :: p) :: tail

/-- `strings.Split s sep` for a single-character separator `sep`. -/
def stringsSplit (s : String) (sep : Char) : List String :=
  (splitChar sep s.data).map (fun l => ⟨l⟩)

/-- `httpHandler` from `collider.go` lines 116–164: splits the path, then
handles POST (relay via Room Table `send`) and DELETE (`removeRoom` for
client `"ALL"`, otherwise a `YOU_ARE_OFFLINE` server error to the client's
connection when it is in the directory, then `remove`). -/
def httpHandler (rt : RoomTable) (method path body : String) :
    RoomTable × List Effect :=
  match stringsSplit path '/' with
  | [_, rid, cid] =>
    if method = "POST" then
      if body = "" then (rt, [.httpErr "Empty request body"])
      else
        match send rt rid cid "POST" body with
        | .error e =>
            (rt, [.sendCall rid cid "POST" body (some e),
                  .httpErr ("Failed to send the message: " ++ e)])
        | .ok (rt', deliv) =>
            (rt', .sendCall rid cid "POST" body none :: deliv ++ [.httpOK])
    else if method = "DELETE" then
      if cid = "ALL" then (removeRoom rt rid, [.removeRoomCall rid, .httpOK])
      else
        (remove rt rid cid,
         (if inDirectory rt cid then [.serverErrTo cid "YOU_ARE_OFFLINE"] else [])
           ++ [.removeCall rid cid, .httpOK])
    else (rt, [])
  | _ => (rt, [.httpErr ("Invalid path: " ++ path)])

/-! ## Invariants of the dispatch state -/

/-- A client identifier that is a member of the room written under `rid` is
in the directory after `setRoom`. -/
theorem inDirectory_setRoom (rt : RoomTable) (rid : String) (r : Room) (cid : String)
    (h : cid ∈ r.members) : inDirectory (setRoom rt rid r) cid = true := by
  induction rt with
  | nil => simp [setRoom, inDirectory, h]
  | cons p rest ih =>
    obtain ⟨k, r0⟩ := p
    by_cases hk : k = rid
    · subst hk
      simp [setRoom, inDirectory, h]
    · simp only [setRoom, if_neg hk]
      simp only [inDirectory, List.any_cons, Bool.or_eq_true] at ih ⊢
      exact Or.inr ih

/-- A successful Room Table registration puts the client in the directory,
so `thisClient = registered_clients[cid]` resolves right after it. -/
theorem register_ok_inDirectory {rt rt' : RoomTable} {rid cid : String} {deliv : List Effect}
    (h : register rt rid cid = .ok (rt', deliv)) : inDirectory rt' cid = true := by
  unfold register at h
  split_ifs at h
  split at h
  · simp only [Except.ok.injEq, Prod.mk.injEq] at h
    exact h.1 ▸ inDirectory_setRoom rt rid _ cid (by simp)
  · split_ifs at h
    simp only [Except.ok.injEq, Prod.mk.injEq] at h
    exact h.1 ▸ inDirectory_setRoom rt rid _ cid (by simp)

/-- The invariant tying `wsHandler`'s locals together: once registered, the
deferred deregistration holds exactly the registered `(rid, cid)` pair and
`thisClient` resolved to the registered client; before registration all of
them are still at their zero values. -/
def goodState (st : ConnState) : Prop :=
  (st.registered = true → st.deferredDereg = some (st.rid, st.cid) ∧ st.thisClient = some st.cid) ∧
  (st.registered = false →
    st.rid = "" ∧ st.cid = "" ∧ st.deferredDereg = none ∧ st.thisClient = none)

instance : DecidablePred goodState := fun st => by
  unfold goodState
  infer_instance

/-- The initial locals satisfy the invariant. -/
theorem initConn_good : goodState initConn := by
  simp [goodState, initConn]

/-- Every iteration of the dispatch loop preserves the locals invariant. -/
theorem wsStep_good (rt : RoomTable) (st : ConnState) (m : WsClientMsg)
    (h : goodState st) : goodState (wsStep rt st m).st := by
  unfold wsStep
  split_ifs with h1 h2 h3 h4 h5 h6 h7 h8 h9 h10
  any_goals exact h
  all_goals try
    (rcases hr : register rt m.roomid m.clientid with e | ⟨rt', deliv⟩
     · simp [hr, h]
     · have hd := register_ok_inDirectory hr
       simp [hr, hd, goodState])
  all_goals try
    (rcases hs : send rt st.rid st.cid "send" m.msg with e | ⟨rt', deliv⟩ <;>
      simp [hs, h])
  all_goals try
    (rcases hb : sendByID rt m.target m.cmd m.msg with e | deliv <;>
      simp [hb, h])

/-- The dispatch loop preserves the locals invariant. -/
theorem wsRun_good (events : List WsEvent) (rt : RoomTable) (st : ConnState)
    (h : goodState st) : goodState (wsRun rt st events).st := by
  induction events generalizing rt st with
  | nil => exact h
  | cons e rest ih =>
    cases e with
    | eof => exact h
    | recvErr s => exact h
    | recv m =>
      simp only [wsRun]
      split
      · exact wsStep_good rt st m h
      · exact ih _ _ (wsStep_good rt st m h)

/-! ## How each command arm of the dispatch switch behaves -/

/-- A register command on an already-registered connection: duplicate
error, everything else untouched, loop continues. -/
theorem wsStep_register_dup (rt : RoomTable) (st : ConnState) (m : WsClientMsg)
    (hc : m.cmd = "register") (hr : st.registered = true) :
    wsStep rt st m = ⟨rt, st, [.wsErr "Duplicated register request"], false⟩ := by
  unfold wsStep
  rw [hc]
  simp [hr]

/-- A first register command with a missing identifier: invalid-request
error and `break loop`, without calling the room table. -/
theorem wsStep_register_missing (rt : RoomTable) (st : ConnState) (m : WsClientMsg)
    (hc : m.cmd = "register") (hr : st.registered = false)
    (hid : m.roomid = "" ∨ m.clientid = "") :
    wsStep rt st m =
      ⟨rt, st, [.wsErr "Invalid register request: missing 'clientid' or 'roomid'"], true⟩ := by
  unfold wsStep
  rw [hc]
  simp [hr, hid]

/-- A leave command: `roomTable.deregister(rid, cid)` and the loop
continues with unchanged locals. -/
theorem wsStep_leave (rt : RoomTable) (st : ConnState) (m : WsClientMsg)
    (hc : m.cmd = "leave") :
    wsStep rt st m = ⟨deregister rt st.rid st.cid, st, [.deregisterCall st.rid st.cid], false⟩ := by
  unfold wsStep
  rw [hc]
  simp

/-- A registered send command with an empty payload: invalid-request error
and `break loop`, without calling `roomTable.send`. -/
theorem wsStep_send_empty (rt : RoomTable) (st : ConnState) (m : WsClientMsg)
    (hg : goodState st) (hr : st.registered = true)
    (hc : m.cmd = "send") (hm : m.msg = "") :
    wsStep rt st m = ⟨rt, st, [.wsErr "Invalid send request: missing 'msg'"], true⟩ := by
  have ht : st.thisClient = some st.cid := (hg.1 hr).2
  unfold wsStep
  rw [hc]
  simp [ht, hr, hm]

/-- A registered send command with a non-empty payload on which
`roomTable.send` fails: the error result is dropped on the floor and the
loop continues. -/
theorem wsStep_send_err (rt : RoomTable) (st : ConnState) (m : WsClientMsg) (e : String)
    (hg : goodState st) (hr : st.registered = true)
    (hc : m.cmd = "send") (hm : ¬ m.msg = "")
    (hs : send rt st.rid st.cid "send" m.msg = .error e) :
    wsStep rt st m = ⟨rt, st, [.sendCall st.rid st.cid "send" m.msg (some e)], false⟩ := by
  have ht : st.thisClient = some st.cid := (hg.1 hr).2
  unfold wsStep
  rw [hc]
  simp [ht, hr, hm, hs]

/-! ## The claims -/

/-- C1: for every connection on which registration has succeeded, every
termination of the dispatch loop — whatever caused it — invokes
`roomTable.deregister` with the registered room and client identifiers
(through the cleanup deferred at registration), so the connection never
exits leaving its registration in place. -/
theorem c1_termination_deregisters (rt : RoomTable) (events : List WsEvent)
    (hterm : (wsRun rt initConn events).terminated = true)
    (hreg : (wsRun rt initConn events).st.registered = true) :
    Effect.deregisterCall (wsRun rt initConn events).st.rid (wsRun rt initConn events).st.cid
      ∈ (wsHandler rt events).2 := by
  have hg := wsRun_good events rt initConn initConn_good
  have hd := (hg.1 hreg).1
  unfold wsHandler wsFinish
  rw [hterm, hd]
  simp

/-- C1 witness: a connection that registers in room `"r1"` as `"a"` and is
then closed by EOF deregisters `("r1", "a")` on exit. -/
theorem c1_termination_deregisters_witness :
    (wsRun [] initConn [WsEvent.recv ⟨"register", "r1", "a", "", ""⟩, WsEvent.eof]).terminated
        = true ∧
    (wsRun [] initConn [WsEvent.recv ⟨"register", "r1", "a", "", ""⟩, WsEvent.eof]).st.registered
        = true ∧
    Effect.deregisterCall
        (wsRun [] initConn [WsEvent.recv ⟨"register", "r1", "a", "", ""⟩, WsEvent.eof]).st.rid
        (wsRun [] initConn [WsEvent.recv ⟨"register", "r1", "a", "", ""⟩, WsEvent.eof]).st.cid
      ∈ (wsHandler [] [WsEvent.recv ⟨"register", "r1", "a", "", ""⟩, WsEvent.eof]).2 :=
  ⟨by decide, by decide,
   c1_termination_deregisters [] [WsEvent.recv ⟨"register", "r1", "a", "", ""⟩, WsEvent.eof]
     (by decide) (by decide)⟩

/-- C2: an unrecognized command is reported as an error but does NOT
terminate dispatch — the `break` in the `default` arm of the Go `switch`
only leaves the switch, so the following register event is still processed
and the loop is still running, contradicting the handler's own
documentation that unexpected messages cause the connection to be closed. -/
theorem c2_unknown_command_not_fatal :
    (wsRun [] initConn
        [WsEvent.recv ⟨"bogus_cmd", "", "", "", ""⟩,
         WsEvent.recv ⟨"register", "r1", "a", "", ""⟩]).eff =
      [Effect.wsErr "Invalid message: unexpected 'cmd'",
       Effect.registerCall "r1" "a" none] ∧
    (wsRun [] initConn
        [WsEvent.recv ⟨"bogus_cmd", "", "", "", ""⟩,
         WsEvent.recv ⟨"register", "r1", "a", "", ""⟩]).terminated = false := by
  decide

/-- C3 counterexample: after `register` in room `"r1"` as `"a"` and then
`leave`, a further register command is rejected with a duplicate-register
error — the re-registration the claim promises does not happen (no second
`registerCall` reaches the room table). -/
theorem c3_counterexample :
    (wsRun [] initConn
        [WsEvent.recv ⟨"register", "r1", "a", "", ""⟩,
         WsEvent.recv ⟨"leave", "", "", "", ""⟩,
         WsEvent.recv ⟨"register", "r1", "a", "", ""⟩]).eff =
      [Effect.registerCall "r1" "a" none,
       Effect.deregisterCall "r1" "a",
       Effect.wsErr "Duplicated register request"] := by
  decide

/-- C3 (amended): on a registered connection a leave command deregisters
the connection from its room and does not close the connection (the loop
continues), but a later register command on the same connection cannot
succeed: the `registered` flag is never cleared, so it is rejected as a
duplicate registration without reaching the room table. -/
theorem c3_leave_keeps_connection_but_blocks_reregistration
    (rt : RoomTable) (st : ConnState) (mLeave mReg : WsClientMsg)
    (hr : st.registered = true)
    (hL : mLeave.cmd = "leave") (hR : mReg.cmd = "register") :
    wsStep rt st mLeave =
      ⟨deregister rt st.rid st.cid, st, [.deregisterCall st.rid st.cid], false⟩ ∧
    wsStep (deregister rt st.rid st.cid) st mReg =
      ⟨deregister rt st.rid st.cid, st, [.wsErr "Duplicated register request"], false⟩ :=
  ⟨wsStep_leave rt st mLeave hL,
   wsStep_register_dup (deregister rt st.rid st.cid) st mReg hR hr⟩

/-- C3 witness: the amended behaviour at a concrete registered state. -/
theorem c3_witness :
    (⟨true, "r1", "a", some "a", some ("r1", "a")⟩ : ConnState).registered = true ∧
    (⟨"leave", "", "", "", ""⟩ : WsClientMsg).cmd = "leave" ∧
    (⟨"register", "r1", "a", "", ""⟩ : WsClientMsg).cmd = "register" ∧
    (wsStep [("r1", ⟨["a"], []⟩)] ⟨true, "r1", "a", some "a", some ("r1", "a")⟩
        ⟨"leave", "", "", "", ""⟩ =
      ⟨deregister [("r1", ⟨["a"], []⟩)] "r1" "a", ⟨true, "r1", "a", some "a", some ("r1", "a")⟩,
       [.deregisterCall "r1" "a"], false⟩ ∧
     wsStep (deregister [("r1", ⟨["a"], []⟩)] "r1" "a") ⟨true, "r1", "a", some "a", some ("r1", "a")⟩
        ⟨"register", "r1", "a", "", ""⟩ =
      ⟨deregister [("r1", ⟨["a"], []⟩)] "r1" "a", ⟨true, "r1", "a", some "a", some ("r1", "a")⟩,
       [.wsErr "Duplicated register request"], false⟩) :=
  ⟨rfl, rfl, rfl,
   c3_leave_keeps_connection_but_blocks_reregistration [("r1", ⟨["a"], []⟩)]
     ⟨true, "r1", "a", some "a", some ("r1", "a")⟩
     ⟨"leave", "", "", "", ""⟩ ⟨"register", "r1", "a", "", ""⟩ rfl rfl rfl⟩

/-- C4 counterexample: a connection registers in `"r1"` as `"a"`, leaves,
then issues a send with a non-empty payload.  `roomTable.send` returns a
`NotRegistered` routing error (recorded in the `sendCall` effect), yet the
trace contains no error report to the connection — the error result is
discarded, refuting the claim that it is reported. -/
theorem c4_counterexample :
    (wsRun [] initConn
        [WsEvent.recv ⟨"register", "r1", "a", "", ""⟩,
         WsEvent.recv ⟨"leave", "", "", "", ""⟩,
         WsEvent.recv ⟨"send", "", "", "hi", ""⟩]).eff =
      [Effect.registerCall "r1" "a" none,
       Effect.deregisterCall "r1" "a",
       Effect.sendCall "r1" "a" "send" "hi" (some "not registered")] ∧
    (wsRun [] initConn
        [WsEvent.recv ⟨"register", "r1", "a", "", ""⟩,
         WsEvent.recv ⟨"leave", "", "", "", ""⟩,
         WsEvent.recv ⟨"send", "", "", "hi", ""⟩]).terminated = false := by
  decide

/-- C4 (amended): for a registered connection issuing a send command with a
non-empty payload, a routing error returned by Room Table `send` is
discarded: no error is reported to the connection (the iteration's only
effect is the failed `sendCall` itself) and the connection is not
terminated. -/
theorem c4_send_routing_error_discarded (rt : RoomTable) (st : ConnState)
    (m : WsClientMsg) (e : String)
    (hg : goodState st) (hr : st.registered = true)
    (hc : m.cmd = "send") (hm : ¬ m.msg = "")
    (hs : send rt st.rid st.cid "send" m.msg = .error e) :
    wsStep rt st m = ⟨rt, st, [.sendCall st.rid st.cid "send" m.msg (some e)], false⟩ :=
  wsStep_send_err rt st m e hg hr hc hm hs

/-- C4 witness: the amended behaviour at the concrete post-leave state. -/
theorem c4_witness :
    goodState ⟨true, "r1", "a", some "a", some ("r1", "a")⟩ ∧
    send [] "r1" "a" "send" "hi" = .error "not registered" ∧
    wsStep [] ⟨true, "r1", "a", some "a", some ("r1", "a")⟩ ⟨"send", "", "", "hi", ""⟩ =
      ⟨[], ⟨true, "r1", "a", some "a", some ("r1", "a")⟩,
       [.sendCall "r1" "a" "send" "hi" (some "not registered")], false⟩ :=
  ⟨by decide, rfl,
   c4_send_routing_error_discarded [] ⟨true, "r1", "a", some "a", some ("r1", "a")⟩
     ⟨"send", "", "", "hi", ""⟩ "not registered"
     (by decide) rfl rfl (by decide) rfl⟩

/-- C5 counterexample: a send command on a still-unregistered connection is
silently skipped by the `thisClient == nil` guard — the iteration produces
no effect at all, so no NotRegistered-style error is reported, refuting the
claim. -/
theorem c5_counterexample :
    wsRun [] initConn [WsEvent.recv ⟨"send", "", "", "hi", ""⟩] =
      ⟨[], initConn, [], false⟩ := by
  decide

/-- C5 (amended): on an unregistered connection, no command other than
register is fatal (dispatch continues in every case), but no
NotRegistered-style error is ever reported.  Exhaustively over the arms:
send and the ancillary kinds are skipped with no effect whatsoever by the
`thisClient == nil` guard; a leave command invokes `roomTable.deregister`
with the still-empty room and client identifiers of the unregistered
locals; and an unrecognized command reports the invalid-message error. -/
theorem c5_unregistered_commands_ignored (rt : RoomTable) (st : ConnState) (m : WsClientMsg)
    (hg : goodState st) (hr : st.registered = false) (hne : ¬ m.cmd = "register") :
    (wsStep rt st m).brk = false ∧
    (m.cmd = "send" ∨ m.cmd = "video_chat" ∨ m.cmd = "audio_chat" ∨ m.cmd = "chat" →
      wsStep rt st m = ⟨rt, st, [], false⟩) ∧
    (m.cmd = "leave" →
      wsStep rt st m = ⟨deregister rt "" "", st, [.deregisterCall "" ""], false⟩) ∧
    (¬ (m.cmd = "send" ∨ m.cmd = "video_chat" ∨ m.cmd = "audio_chat" ∨ m.cmd = "chat" ∨
          m.cmd = "leave") →
      wsStep rt st m = ⟨rt, st, [.wsErr "Invalid message: unexpected 'cmd'"], false⟩) := by
  have ht : st.thisClient = none := (hg.2 hr).2.2.2
  have hrid : st.rid = "" := (hg.2 hr).1
  have hcid : st.cid = "" := (hg.2 hr).2.1
  by_cases h2 : m.cmd = "send"
  · have he : wsStep rt st m = ⟨rt, st, [], false⟩ := by
      unfold wsStep
      rw [h2]
      simp [ht]
    refine ⟨by rw [he], fun _ => he, fun h => ?_, fun hcc => absurd (Or.inl h2) hcc⟩
    · rw [h2] at h
      exact absurd h (by decide)
  · by_cases h3 : m.cmd = "video_chat" ∨ m.cmd = "audio_chat" ∨ m.cmd = "chat"
    · have he : wsStep rt st m = ⟨rt, st, [], false⟩ := by
        unfold wsStep
        rw [if_neg hne, if_neg h2, if_pos h3, ht]
        simp
      refine ⟨by rw [he], fun _ => he, fun h => ?_,
              fun hcc => absurd (Or.inr (h3.imp id (Or.imp id Or.inl))) hcc⟩
      · rcases h3 with h' | h' | h' <;> rw [h'] at h <;> exact absurd h (by decide)
    · by_cases h4 : m.cmd = "leave"
      · have he : wsStep rt st m =
            ⟨deregister rt "" "", st, [.deregisterCall "" ""], false⟩ := by
          have := wsStep_leave rt st m h4
          rw [hrid, hcid] at this
          exact this
        refine ⟨by rw [he], fun hcc => ?_, fun _ => he,
                fun hcc => absurd (Or.inr (Or.inr (Or.inr (Or.inr h4)))) hcc⟩
        rcases hcc with h | h | h | h
        · exact absurd h h2
        · exact absurd (Or.inl h) h3
        · exact absurd (Or.inr (Or.inl h)) h3
        · exact absurd (Or.inr (Or.inr h)) h3
      · have he : wsStep rt st m =
            ⟨rt, st, [.wsErr "Invalid message: unexpected 'cmd'"], false⟩ := by
          unfold wsStep
          rw [if_neg hne, if_neg h2, if_neg h3, if_neg h4]
        refine ⟨by rw [he], fun hcc => ?_, fun h => absurd h h4, fun _ => he⟩
        rcases hcc with h | h | h | h
        · exact absurd h h2
        · exact absurd (Or.inl h) h3
        · exact absurd (Or.inr (Or.inl h)) h3
        · exact absurd (Or.inr (Or.inr h)) h3

/-- C5 witness: the amended behaviour at concrete unregistered inputs,
exercising the send arm (silent skip), the leave arm (deregister with the
empty identifiers) and an unrecognized command (invalid-message error,
loop still running). -/
theorem c5_witness :
    goodState initConn ∧
    ¬ (⟨"send", "", "", "hi", ""⟩ : WsClientMsg).cmd = "register" ∧
    (wsStep [] initConn ⟨"send", "", "", "hi", ""⟩ = ⟨[], initConn, [], false⟩) ∧
    (wsStep [] initConn ⟨"leave", "", "", "", ""⟩ =
      ⟨deregister [] "" "", initConn, [.deregisterCall "" ""], false⟩) ∧
    (wsStep [] initConn ⟨"bogus_cmd", "", "", "", ""⟩ =
      ⟨[], initConn, [.wsErr "Invalid message: unexpected 'cmd'"], false⟩) :=
  ⟨by decide, by decide,
   (c5_unregistered_commands_ignored [] initConn ⟨"send", "", "", "hi", ""⟩
      (by decide) rfl (by decide)).2.1 (Or.inl rfl),
   (c5_unregistered_commands_ignored [] initConn ⟨"leave", "", "", "", ""⟩
      (by decide) rfl (by decide)).2.2.1 rfl,
   (c5_unregistered_commands_ignored [] initConn ⟨"bogus_cmd", "", "", "", ""⟩
      (by decide) rfl (by decide)).2.2.2 (by decide)⟩

/-- C6: a register command on an already-registered connection is rejected
with a duplicate-registration error; the room table is untouched (no
`registerCall` in the trace), the locals — including the registered room
and client identifiers — are unchanged, and dispatch continues. -/
theorem c6_duplicate_registration_rejected (rt : RoomTable) (st : ConnState) (m : WsClientMsg)
    (hr : st.registered = true) (hc : m.cmd = "register") :
    wsStep rt st m = ⟨rt, st, [.wsErr "Duplicated register request"], false⟩ :=
  wsStep_register_dup rt st m hc hr

/-- C6 witness: a concrete duplicate registration. -/
theorem c6_witness :
    (⟨true, "r1", "a", some "a", some ("r1", "a")⟩ : ConnState).registered = true ∧
    (⟨"register", "r2", "b", "", ""⟩ : WsClientMsg).cmd = "register" ∧
    wsStep [("r1", ⟨["a"], []⟩)] ⟨true, "r1", "a", some "a", some ("r1", "a")⟩
        ⟨"register", "r2", "b", "", ""⟩ =
      ⟨[("r1", ⟨["a"], []⟩)], ⟨true, "r1", "a", some "a", some ("r1", "a")⟩,
       [.wsErr "Duplicated register request"], false⟩ :=
  ⟨rfl, rfl,
   c6_duplicate_registration_rejected [("r1", ⟨["a"], []⟩)]
     ⟨true, "r1", "a", some "a", some ("r1", "a")⟩ ⟨"register", "r2", "b", "", ""⟩ rfl rfl⟩

/-- C7 counterexample: on an ALREADY-registered connection, a register
command with empty identifiers is caught by the duplicate-registration
check first, reported non-fatally, and the loop keeps running — so "for
every connection" the empty-identifier register is fatal is false. -/
theorem c7_counterexample :
    (wsRun [] initConn
        [WsEvent.recv ⟨"register", "r1", "a", "", ""⟩,
         WsEvent.recv ⟨"register", "", "", "", ""⟩]).eff =
      [Effect.registerCall "r1" "a" none,
       Effect.wsErr "Duplicated register request"] ∧
    (wsRun [] initConn
        [WsEvent.recv ⟨"register", "r1", "a", "", ""⟩,
         WsEvent.recv ⟨"register", "", "", "", ""⟩]).terminated = false := by
  decide

/-- C7 (amended): on a connection that has not yet registered, a register
command whose room or client identifier is empty is a fatal protocol
error: the invalid-request error is reported, dispatch terminates, and
Room Table `register` is never invoked (no `registerCall` in the
iteration's effects).  On an already-registered connection the
duplicate-registration rejection fires first instead. -/
theorem c7_missing_identifier_fatal (rt : RoomTable) (st : ConnState) (m : WsClientMsg)
    (hr : st.registered = false) (hc : m.cmd = "register")
    (hid : m.roomid = "" ∨ m.clientid = "") :
    wsStep rt st m =
      ⟨rt, st, [.wsErr "Invalid register request: missing 'clientid' or 'roomid'"], true⟩ :=
  wsStep_register_missing rt st m hc hr hid

/-- C7 witness: a concrete register command with an empty client id. -/
theorem c7_witness :
    initConn.registered = false ∧
    (⟨"register", "r1", "", "", ""⟩ : WsClientMsg).clientid = "" ∧
    wsStep [] initConn ⟨"register", "r1", "", "", ""⟩ =
      ⟨[], initConn, [.wsErr "Invalid register request: missing 'clientid' or 'roomid'"], true⟩ :=
  ⟨rfl, rfl,
   c7_missing_identifier_fatal [] initConn ⟨"register", "r1", "", "", ""⟩ rfl rfl (Or.inr rfl)⟩

/-- C8: on a registered connection, a send command with an empty payload is
a fatal protocol error: the invalid-request error is reported and dispatch
terminates, and Room Table `send` is never invoked (no `sendCall` in the
iteration's effects). -/
theorem c8_empty_payload_send_fatal (rt : RoomTable) (st : ConnState) (m : WsClientMsg)
    (hg : goodState st) (hr : st.registered = true)
    (hc : m.cmd = "send") (hm : m.msg = "") :
    wsStep rt st m = ⟨rt, st, [.wsErr "Invalid send request: missing 'msg'"], true⟩ :=
  wsStep_send_empty rt st m hg hr hc hm

/-- C8 witness: a concrete empty-payload send on a registered connection. -/
theorem c8_witness :
    goodState ⟨true, "r1", "a", some "a", some ("r1", "a")⟩ ∧
    (⟨"send", "", "", "", ""⟩ : WsClientMsg).msg = "" ∧
    wsStep [("r1", ⟨["a"], []⟩)] ⟨true, "r1", "a", some "a", some ("r1", "a")⟩
        ⟨"send", "", "", "", ""⟩ =
      ⟨[("r1", ⟨["a"], []⟩)], ⟨true, "r1", "a", some "a", some ("r1", "a")⟩,
       [.wsErr "Invalid send request: missing 'msg'"], true⟩ :=
  ⟨by decide, rfl,
   c8_empty_payload_send_fatal [("r1", ⟨["a"], []⟩)]
     ⟨true, "r1", "a", some "a", some ("r1", "a")⟩ ⟨"send", "", "", "", ""⟩
     (by decide) rfl rfl rfl⟩

/-- C9: on a registered connection, an ancillary command (`video_chat`,
`audio_chat` or `chat`) with non-empty target and payload invokes
`sendByID` with that target, kind and payload; with an empty target or
payload the iteration is a complete no-op (no delivery, no error, state
untouched); and in either case dispatch continues — the command is never
fatal. -/
theorem c9_ancillary_commands (rt : RoomTable) (st : ConnState) (m : WsClientMsg)
    (hg : goodState st) (hr : st.registered = true)
    (hk : m.cmd = "video_chat" ∨ m.cmd = "audio_chat" ∨ m.cmd = "chat") :
    (wsStep rt st m).brk = false ∧
    (m.msg ≠ "" ∧ m.target ≠ "" →
      ∃ res rest, (wsStep rt st m).eff = Effect.sendByIDCall m.target m.cmd m.msg res :: rest) ∧
    (m.msg = "" ∨ m.target = "" → wsStep rt st m = ⟨rt, st, [], false⟩) := by
  have ht : st.thisClient = some st.cid := (hg.1 hr).2
  have hne1 : ¬ m.cmd = "register" := by rcases hk with h | h | h <;> rw [h] <;> decide
  have hne2 : ¬ m.cmd = "send" := by rcases hk with h | h | h <;> rw [h] <;> decide
  have hstep : wsStep rt st m =
      if m.msg ≠ "" ∧ m.target ≠ "" then
        match sendByID rt m.target m.cmd m.msg with
        | .error e => ⟨rt, st, [.sendByIDCall m.target m.cmd m.msg (some e), .serverErr e], false⟩
        | .ok deliv => ⟨rt, st, .sendByIDCall m.target m.cmd m.msg none :: deliv, false⟩
      else ⟨rt, st, [], false⟩ := by
    unfold wsStep
    rw [if_neg hne1, if_neg hne2, if_pos hk, ht]
    simp
  rw [hstep]
  by_cases hc : m.msg ≠ "" ∧ m.target ≠ ""
  · rw [if_pos hc]
    refine ⟨?_, fun _ => ?_, fun hcc => ?_⟩
    · rcases hb : sendByID rt m.target m.cmd m.msg with e | deliv <;> simp [hb]
    · rcases hb : sendByID rt m.target m.cmd m.msg with e | deliv
      · exact ⟨some e, [Effect.serverErr e], by simp [hb]⟩
      · exact ⟨none, deliv, by simp [hb]⟩
    · rcases hcc with h | h
      · exact absurd h hc.1
      · exact absurd h hc.2
  · rw [if_neg hc]
    exact ⟨rfl, fun hcc => absurd hcc hc, fun _ => rfl⟩

/-- C9 witness: a concrete chat command routed to a connected peer, and a
concrete chat command with an empty target that is a no-op. -/
theorem c9_witness :
    goodState ⟨true, "r1", "a", some "a", some ("r1", "a")⟩ ∧
    (∃ res rest,
      (wsStep [("r1", ⟨["a"], []⟩), ("r2", ⟨["b"], []⟩)]
          ⟨true, "r1", "a", some "a", some ("r1", "a")⟩ ⟨"chat", "", "", "yo", "b"⟩).eff =
        Effect.sendByIDCall "b" "chat" "yo" res :: rest) ∧
    wsStep [("r1", ⟨["a"], []⟩)] ⟨true, "r1", "a", some "a", some ("r1", "a")⟩
        ⟨"chat", "", "", "yo", ""⟩ =
      ⟨[("r1", ⟨["a"], []⟩)], ⟨true, "r1", "a", some "a", some ("r1", "a")⟩, [], false⟩ :=
  ⟨by decide,
   (c9_ancillary_commands [("r1", ⟨["a"], []⟩), ("r2", ⟨["b"], []⟩)]
      ⟨true, "r1", "a", some "a", some ("r1", "a")⟩ ⟨"chat", "", "", "yo", "b"⟩
      (by decide) rfl (Or.inr (Or.inr rfl))).2.1 (by decide),
   (c9_ancillary_commands [("r1", ⟨["a"], []⟩)]
      ⟨true, "r1", "a", some "a", some ("r1", "a")⟩ ⟨"chat", "", "", "yo", ""⟩
      (by decide) rfl (Or.inr (Or.inr rfl))).2.2 (Or.inr rfl)⟩

/-- C10: an HTTP DELETE to `/$ROOMID/$CLIENTID` removes the whole room via
`removeRoom` when the client identifier is exactly `"ALL"`; otherwise it
first delivers a `YOU_ARE_OFFLINE` server error to that client's connection
when the client is in the directory, and then removes only that client via
`remove`. -/
theorem c10_http_delete (rt : RoomTable) (method path body rid cid : String)
    (hm : method = "DELETE") (hp : stringsSplit path '/' = ["", rid, cid]) :
    httpHandler rt method path body =
      if cid = "ALL" then (removeRoom rt rid, [.removeRoomCall rid, .httpOK])
      else
        (remove rt rid cid,
         (if inDirectory rt cid then [.serverErrTo cid "YOU_ARE_OFFLINE"] else [])
           ++ [.removeCall rid cid, .httpOK]) := by
  unfold httpHandler
  rw [hp, hm]
  simp

/-- C10 witness: deleting client `"b"` of room `"r1"` while it is in the
directory, and deleting a whole room via client id `"ALL"`. -/
theorem c10_witness :
    stringsSplit "/r1/b" '/' = ["", "r1", "b"] ∧
    inDirectory [("r1", ⟨["a", "b"], []⟩)] "b" = true ∧
    httpHandler [("r1", ⟨["a", "b"], []⟩)] "DELETE" "/r1/b" "" =
      (if ("b" : String) = "ALL"
       then (removeRoom [("r1", ⟨["a", "b"], []⟩)] "r1", [.removeRoomCall "r1", .httpOK])
       else
        (remove [("r1", ⟨["a", "b"], []⟩)] "r1" "b",
         (if inDirectory [("r1", ⟨["a", "b"], []⟩)] "b"
          then [.serverErrTo "b" "YOU_ARE_OFFLINE"] else [])
           ++ [.removeCall "r1" "b", .httpOK])) ∧
    httpHandler [("r1", ⟨["a", "b"], []⟩)] "DELETE" "/r1/ALL" "" =
      (if ("ALL" : String) = "ALL"
       then (removeRoom [("r1", ⟨["a", "b"], []⟩)] "r1", [.removeRoomCall "r1", .httpOK])
       else
        (remove [("r1", ⟨["a", "b"], []⟩)] "r1" "ALL",
         (if inDirectory [("r1", ⟨["a", "b"], []⟩)] "ALL"
          then [.serverErrTo "ALL" "YOU_ARE_OFFLINE"] else [])
           ++ [.removeCall "r1" "ALL", .httpOK])) :=
  ⟨by decide, by decide,
   c10_http_delete [("r1", ⟨["a", "b"], []⟩)] "DELETE" "/r1/b" "" "r1" "b" rfl (by decide),
   c10_http_delete [("r1", ⟨["a", "b"], []⟩)] "DELETE" "/r1/ALL" "" "r1" "ALL" rfl (by decide)⟩

end Collider
